import Mathlib

/-!
Verification of the ESP32 sound-detection sketch (`videoSDK.ino`).

The definitions below are a shallow embedding of the sampling and trigger
pipeline: the configuration constants (lines 18-28), the idle-loop trigger
logic (`loop`, lines 81-101), DC-offset calibration (`calibrateDCOffset`,
lines 138-147) and the capture routine (`recordAndAlert`, lines 179-220).
Hardware reads (`adc1_get_raw`) are modelled as a stream `ℕ → ℕ` giving the
value returned by the i-th read; `micros()` wraps modulo 2^32 (32-bit
`unsigned long`); the `int16_t` buffer stores values with two's-complement
wrap-around.
-/

set_option autoImplicit false
set_option linter.unusedVariables false
set_option maxRecDepth 10000

namespace VideoSDK

/-- `#define SAMPLE_RATE 8000` (line 19). -/
def SAMPLE_RATE : ℕ := 8000

/-- `#define RECORD_DURATION_SECONDS 3` (line 20). -/
def RECORD_DURATION_SECONDS : ℕ := 3

/-- `#define AMPLITUDE_THRESHOLD 500` (line 21), compared against an `int`
amplitude. -/
def AMPLITUDE_THRESHOLD : ℤ := 500

/-- `#define GAIN_FACTOR 8` (line 23). -/
def GAIN_FACTOR : ℤ := 8

/-- `const int TOTAL_SAMPLES = SAMPLE_RATE * RECORD_DURATION_SECONDS`
(line 27). -/
def TOTAL_SAMPLES : ℕ := SAMPLE_RATE * RECORD_DURATION_SECONDS

/-- `const int SAMPLING_PERIOD_US = round(1000000.0 / SAMPLE_RATE)`
(line 28): the nearest integer to 1000000 / SAMPLE_RATE. -/
def SAMPLING_PERIOD_US : ℕ := (round ((1000000 : ℚ) / (SAMPLE_RATE : ℚ))).toNat

/-- The `delay(2000)` after a capture in `loop` (line 96), in milliseconds. -/
def COOLDOWN_MS : ℕ := 2000

/-- Modulus of the 32-bit `unsigned long` arithmetic used for `micros()`
and `nextSampleTime` (lines 195-199). -/
def UINT32_MOD : ℕ := 2 ^ 32

/-- Conversion of an `int` expression to the `int16_t` buffer element
(line 201): two's-complement wrap-around into [-32768, 32767]. -/
def toInt16 (x : ℤ) : ℤ := (x + 32768) % 65536 - 32768

/-- The sampling loop of `recordAndAlert` (lines 197-202): for each
`i < TOTAL_SAMPLES` it stores `buffer[i] = (raw - adc_dc_offset) * GAIN_FACTOR`
as an `int16_t`, where `raw` is the i-th ADC read of the capture. The loop
runs the full count with no early exit. -/
def captureBuffer (raw : ℕ → ℕ) (dc : ℤ) : List ℤ :=
  (List.range TOTAL_SAMPLES).map (fun i => toInt16 (((raw i : ℤ) - dc) * GAIN_FACTOR))

/-- The deadline (`nextSampleTime`) under which the i-th sample of a capture
is taken (lines 195-199): initialised to `micros()` (= `t0`), and advanced by
`nextSampleTime += SAMPLING_PERIOD_US` after each sample — from the previous
deadline, never from the current time. `unsigned long` wraps modulo 2^32. -/
def deadline (t0 : ℕ) : ℕ → ℕ
  | 0 => t0 % UINT32_MOD
  | i + 1 => (deadline t0 i + SAMPLING_PERIOD_US) % UINT32_MOD

/-- `calibrateDCOffset` (lines 138-147): sums 1024 consecutive ADC reads into
a `long` accumulator and sets `adc_dc_offset = sum / 1024` (C integer
division; all reads are non-negative, so this is truncating division). -/
def calibrateDCOffset (raw : ℕ → ℕ) : ℕ :=
  ((List.range 1024).foldl (fun sum i => sum + raw i) 0) / 1024

/-- Modelled from the spec: `Calibrator.calibrate()` "averages them ... and
returns the rounded mean as DCOffset" — the mean of the 1024 samples rounded
to the nearest integer. Used only to compare against `calibrateDCOffset`,
which is what the code computes. -/
def calibrateRoundedSpec (raw : ℕ → ℕ) : ℤ :=
  round (((((List.range 1024).foldl (fun sum i => sum + raw i) 0 : ℕ)) : ℚ) / 1024)

/-- Environment of one `recordAndAlert` call: whether `malloc` succeeds
(line 188), whether `SPIFFS.open(filename, "w")` succeeds (line 204), and the
ADC read stream for the capture loop. -/
structure RecordEnv where
  allocOk : Bool
  fileOpenOk : Bool
  raw : ℕ → ℕ

/-- Observable outcome of one `recordAndAlert` call: how many samples were
taken, the buffer contents (none if allocation failed), whether `free` was
reached, whether the file was written, and whether the MQTT alert was
published. -/
structure RecordResult where
  samplesTaken : ℕ
  buffer : Option (List ℤ)
  bufferFreed : Bool
  fileWritten : Bool
  alertPublished : Bool

/-- `recordAndAlert` (lines 179-220): on `malloc` failure it returns at once
(line 191) — no samples, no file, no alert; otherwise it fills the buffer,
and on `SPIFFS.open` failure frees the buffer and returns (lines 205-209)
without writing or publishing; on success it writes the file, closes it,
frees the buffer and only then publishes the MQTT alert (lines 210-217). -/
def recordAndAlert (env : RecordEnv) (dc : ℤ) (triggerAmplitude : ℤ) : RecordResult :=
  if !env.allocOk then
    { samplesTaken := 0, buffer := none, bufferFreed := false
      fileWritten := false, alertPublished := false }
  else
    let buf := captureBuffer env.raw dc
    if !env.fileOpenOk then
      { samplesTaken := TOTAL_SAMPLES, buffer := some buf, bufferFreed := true
        fileWritten := false, alertPublished := false }
    else
      { samplesTaken := TOTAL_SAMPLES, buffer := some buf, bufferFreed := true
        fileWritten := true, alertPublished := true }

/-- Events observable during one `loop()` iteration (lines 81-101). -/
inductive Event where
  | trigEval (amplitude : ℤ)
  | flagSet
  | captureStart
  | captureEnd
  | flagClear
  | cooldown (ms : ℕ)
deriving DecidableEq

/-- Event trace of one `loop()` iteration (lines 88-98), as a function of the
`isRecording` flag at entry and the one ADC read of the iteration. When the
flag is clear the amplitude `|adc_value - adc_dc_offset|` is evaluated; above
the threshold the code sets `isRecording`, runs `recordAndAlert` to
completion, clears `isRecording` and sleeps `delay(2000)` — unconditionally,
whatever `recordAndAlert` did (`env` does not affect the trace). -/
def loopTrace (env : RecordEnv) (isRec : Bool) (adc dc : ℤ) : List Event :=
  if isRec then []
  else
    let amplitude := |adc - dc|
    if AMPLITUDE_THRESHOLD < amplitude then
      [Event.trigEval amplitude, Event.flagSet, Event.captureStart,
       Event.captureEnd, Event.flagClear, Event.cooldown COOLDOWN_MS]
    else
      [Event.trigEval amplitude]

/-- The `recordAndAlert` call made by one `loop()` iteration, if any
(lines 88-94): only when the flag is clear and the amplitude strictly exceeds
the threshold, and then with the measured amplitude as argument. -/
def loopCapture (env : RecordEnv) (isRec : Bool) (adc dc : ℤ) : Option RecordResult :=
  if isRec then none
  else
    let amplitude := |adc - dc|
    if AMPLITUDE_THRESHOLD < amplitude then
      some (recordAndAlert env dc amplitude)
    else
      none

/-- A concrete environment where both `malloc` and `SPIFFS.open` succeed and
every ADC read returns 2600. -/
def env0 : RecordEnv := { allocOk := true, fileOpenOk := true, raw := fun _ => 2600 }

/-- A concrete environment where `malloc` fails. -/
def envNoAlloc : RecordEnv := { allocOk := false, fileOpenOk := true, raw := fun _ => 2600 }

/-- A concrete environment where `malloc` succeeds but `SPIFFS.open` fails. -/
def envNoFile : RecordEnv := { allocOk := true, fileOpenOk := false, raw := fun _ => 2600 }

/-- A concrete calibration input: first read 1023, the other 1023 reads 0.
Its mean is 1023/1024 ≈ 0.999, so the rounded mean is 1 while truncating
division gives 0. -/
def exCalibF : ℕ → ℕ := fun i => if i = 0 then 1023 else 0

/-- A pair of concrete ADC streams that agree on the 1024 calibration reads
but differ beyond them. -/
def exF2 : ℕ → ℕ := fun _ => 5

/-- See `exF2`. -/
def exG2 : ℕ → ℕ := fun i => if i < 1024 then 5 else 7

/-! ## Helper lemmas -/

theorem sampling_period_us_eq : SAMPLING_PERIOD_US = 125 := by
  have h : (1000000 : ℚ) / ((SAMPLE_RATE : ℕ) : ℚ) = ((125 : ℤ) : ℚ) := by
    norm_num [SAMPLE_RATE]
  simp [SAMPLING_PERIOD_US, h, round_intCast]

theorem toInt16_eq_self (v : ℤ) (h1 : -32768 ≤ v) (h2 : v ≤ 32767) : toInt16 v = v := by
  unfold toInt16; omega

theorem captureBuffer_length (raw : ℕ → ℕ) (dc : ℤ) :
    (captureBuffer raw dc).length = TOTAL_SAMPLES := by
  simp [captureBuffer]

theorem captureBuffer_getElem (raw : ℕ → ℕ) (dc : ℤ) (i : ℕ) (h : i < TOTAL_SAMPLES) :
    (captureBuffer raw dc)[i]? = some (toInt16 (((raw i : ℤ) - dc) * GAIN_FACTOR)) := by
  simp [captureBuffer, List.getElem?_map, List.getElem?_range, h]

theorem foldl_add_eq_sum (f : ℕ → ℕ) (a n : ℕ) :
    (List.range n).foldl (fun sum i => sum + f i) a = a + ∑ i in Finset.range n, f i := by
  induction n generalizing a with
  | zero => simp
  | succ n ih =>
    rw [List.range_succ, List.foldl_append, ih]
    simp [Finset.sum_range_succ]
    omega

theorem calibrate_eq_sum (raw : ℕ → ℕ) :
    calibrateDCOffset raw = (∑ i in Finset.range 1024, raw i) / 1024 := by
  unfold calibrateDCOffset
  rw [foldl_add_eq_sum, Nat.zero_add]

theorem loopTrace_pos (env : RecordEnv) (adc dc : ℤ)
    (h : AMPLITUDE_THRESHOLD < |adc - dc|) :
    loopTrace env false adc dc =
      [Event.trigEval |adc - dc|, Event.flagSet, Event.captureStart,
       Event.captureEnd, Event.flagClear, Event.cooldown COOLDOWN_MS] := by
  simp [loopTrace, h]

theorem loopTrace_neg (env : RecordEnv) (adc dc : ℤ)
    (h : ¬ AMPLITUDE_THRESHOLD < |adc - dc|) :
    loopTrace env false adc dc = [Event.trigEval |adc - dc|] := by
  simp [loopTrace, h]

theorem alert_imp_fileWritten (e : RecordEnv) (dc amp : ℤ)
    (he : (recordAndAlert e dc amp).alertPublished = true) :
    (recordAndAlert e dc amp).fileWritten = true := by
  cases h1 : e.allocOk <;> cases h2 : e.fileOpenOk <;> simp_all [recordAndAlert]

/-! ## Claims -/

/-- Claim C1: while the pipeline is Armed (`isRecording` false), a `loop()`
iteration starts a capture iff `|adc_value - adc_dc_offset|` strictly exceeds
`AMPLITUDE_THRESHOLD` (500); a sample at exactly the threshold does not
trigger. -/
theorem trigger_iff_amplitude_gt_threshold (env : RecordEnv) (adc dc : ℤ) :
    ((loopCapture env false adc dc).isSome ↔ AMPLITUDE_THRESHOLD < |adc - dc|) ∧
    (|adc - dc| = AMPLITUDE_THRESHOLD → loopCapture env false adc dc = none) := by
  constructor
  · by_cases h : AMPLITUDE_THRESHOLD < |adc - dc| <;> simp [loopCapture, h]
  · intro h
    simp [loopCapture, h]

/-- Witness for C1 at the boundary: DCOffset 2048, sample 2548, amplitude
exactly 500 — no capture. -/
theorem trigger_iff_amplitude_gt_threshold_witness :
    |(2548 : ℤ) - 2048| = AMPLITUDE_THRESHOLD ∧ loopCapture env0 false 2548 2048 = none :=
  ⟨by decide, (trigger_iff_amplitude_gt_threshold env0 2548 2048).2 (by decide)⟩

/-- Claim C2: whenever allocation succeeds, `recordAndAlert` fills a buffer of
exactly `SAMPLE_RATE * RECORD_DURATION_SECONDS = 24000` elements, for every
trigger amplitude, and the sampling loop runs the full `TOTAL_SAMPLES`
count. -/
theorem capture_full_length (env : RecordEnv) (dc amp : ℤ) (h : env.allocOk = true) :
    ∃ b, (recordAndAlert env dc amp).buffer = some b ∧
      b.length = SAMPLE_RATE * RECORD_DURATION_SECONDS ∧
      b.length = 24000 ∧
      (recordAndAlert env dc amp).samplesTaken = TOTAL_SAMPLES := by
  refine ⟨captureBuffer env.raw dc, ?_, captureBuffer_length env.raw dc,
    by rw [captureBuffer_length]; decide, ?_⟩ <;>
    cases hf : env.fileOpenOk <;> simp [recordAndAlert, h, hf]

/-- Witness for C2 at a concrete environment and amplitude 552. -/
theorem capture_full_length_witness :
    env0.allocOk = true ∧
    ∃ b, (recordAndAlert env0 2048 552).buffer = some b ∧
      b.length = SAMPLE_RATE * RECORD_DURATION_SECONDS ∧
      b.length = 24000 ∧
      (recordAndAlert env0 2048 552).samplesTaken = TOTAL_SAMPLES :=
  ⟨rfl, capture_full_length env0 2048 552 rfl⟩

/-- Claim C3: the deadline for the i-th sample of a capture is the loop's
start time plus `i * SAMPLING_PERIOD_US` (in 32-bit `unsigned long`
arithmetic); each step advances the previous deadline by exactly one period,
and the period is `round(1000000 / SAMPLE_RATE) = 125` microseconds. -/
theorem deadline_formula :
    (∀ t0 i, deadline t0 i = (t0 + i * SAMPLING_PERIOD_US) % UINT32_MOD) ∧
    (∀ t0 i, deadline t0 (i + 1) = (deadline t0 i + SAMPLING_PERIOD_US) % UINT32_MOD) ∧
    SAMPLING_PERIOD_US = 125 := by
  refine ⟨?_, fun t0 i => rfl, sampling_period_us_eq⟩
  intro t0 i
  induction i with
  | zero => simp [deadline]
  | succ i ih =>
    show (deadline t0 i + SAMPLING_PERIOD_US) % UINT32_MOD = _
    rw [ih, Nat.mod_add_mod, Nat.succ_mul, Nat.add_assoc]

/-- Claim C4: every stored buffer element is `(raw - DCOffset) * GAIN_FACTOR`
wrapped to a signed 16-bit value; when the product fits in int16 range it is
stored exactly. -/
theorem stored_sample_scaling (raw : ℕ → ℕ) (dc : ℤ) (i : ℕ) (h : i < TOTAL_SAMPLES) :
    (captureBuffer raw dc)[i]? = some (toInt16 (((raw i : ℤ) - dc) * GAIN_FACTOR)) ∧
    (-32768 ≤ ((raw i : ℤ) - dc) * GAIN_FACTOR → ((raw i : ℤ) - dc) * GAIN_FACTOR ≤ 32767 →
      (captureBuffer raw dc)[i]? = some (((raw i : ℤ) - dc) * GAIN_FACTOR)) := by
  refine ⟨captureBuffer_getElem raw dc i h, fun h1 h2 => ?_⟩
  rw [captureBuffer_getElem raw dc i h, toInt16_eq_self _ h1 h2]

/-- Witness for C4: raw reading 2600 with DCOffset 2048 stores
(2600 - 2048) * 8 = 4416. -/
theorem stored_sample_scaling_witness :
    (0 : ℕ) < TOTAL_SAMPLES ∧ (captureBuffer (fun _ => 2600) 2048)[0]? = some 4416 := by
  refine ⟨by decide, ?_⟩
  have h := (stored_sample_scaling (fun _ => 2600) 2048 0 (by decide)).2 (by decide) (by decide)
  exact h.trans (by decide)

/-- Claim C5 counterexample: on the input `exCalibF` (sum 1023, mean
1023/1024), the code's truncating division returns 0 while the rounded mean
is 1 — `calibrateDCOffset` does not return the rounded mean. -/
theorem calibrate_not_rounded_counterexample :
    calibrateDCOffset exCalibF = 0 ∧ calibrateRoundedSpec exCalibF = 1 ∧
    (calibrateDCOffset exCalibF : ℤ) ≠ calibrateRoundedSpec exCalibF := by
  have hsum : (List.range 1024).foldl (fun sum i => sum + exCalibF i) 0 = 1023 := by decide
  have h1 : calibrateDCOffset exCalibF = 0 := by
    unfold calibrateDCOffset; rw [hsum]
  have h2 : calibrateRoundedSpec exCalibF = 1 := by
    unfold calibrateRoundedSpec; rw [hsum, round_eq]; norm_num
  exact ⟨h1, h2, by rw [h1, h2]; decide⟩

/-- Claim C5 (amended): `calibrateDCOffset` returns the truncated integer
mean of the 1024 calibration samples — the sum divided by 1024 with
truncating integer division, not the rounded mean. -/
theorem calibrate_truncated_mean (raw : ℕ → ℕ) :
    calibrateDCOffset raw = (∑ i in Finset.range 1024, raw i) / 1024 :=
  calibrate_eq_sum raw

/-- Claim C6: single-capture invariant of one `loop()` iteration — with the
busy flag set nothing happens (no trigger evaluation, no capture); with it
clear at most one capture starts, and any capture is bracketed by
`flagSet` before `captureStart` and `flagClear` only after `captureEnd`. -/
theorem single_capture_invariant (env : RecordEnv) (adc dc : ℤ) :
    loopTrace env true adc dc = [] ∧
    (loopTrace env false adc dc).count Event.captureStart ≤ 1 ∧
    (Event.captureStart ∈ loopTrace env false adc dc →
      loopTrace env false adc dc =
        [Event.trigEval |adc - dc|, Event.flagSet, Event.captureStart,
         Event.captureEnd, Event.flagClear, Event.cooldown COOLDOWN_MS]) := by
  refine ⟨rfl, ?_, ?_⟩
  · by_cases h : AMPLITUDE_THRESHOLD < |adc - dc|
    · rw [loopTrace_pos env adc dc h]
      simp [List.count_cons]
    · rw [loopTrace_neg env adc dc h]
      simp [List.count_cons]
  · intro hm
    by_cases h : AMPLITUDE_THRESHOLD < |adc - dc|
    · exact loopTrace_pos env adc dc h
    · rw [loopTrace_neg env adc dc h] at hm
      simp at hm

/-- Witness for C6: a triggering sample (2600 vs offset 2048) produces the
full bracketed trace. -/
theorem single_capture_invariant_witness :
    Event.captureStart ∈ loopTrace env0 false 2600 2048 ∧
    loopTrace env0 false 2600 2048 =
      [Event.trigEval 552, Event.flagSet, Event.captureStart,
       Event.captureEnd, Event.flagClear, Event.cooldown COOLDOWN_MS] := by
  refine ⟨by decide, ?_⟩
  have h := (single_capture_invariant env0 2600 2048).2.2 (by decide)
  exact h.trans (by decide)

/-- Claim C7: after every capture attempt the iteration ends with
`flagClear` followed by a fixed `cooldown COOLDOWN_MS` (2000 ms) and no
further trigger evaluation. -/
theorem cooldown_after_capture (env : RecordEnv) (adc dc : ℤ)
    (h : Event.captureEnd ∈ loopTrace env false adc dc) :
    (∃ pre, loopTrace env false adc dc =
        pre ++ [Event.captureEnd, Event.flagClear, Event.cooldown COOLDOWN_MS]) ∧
    COOLDOWN_MS = 2000 := by
  by_cases hc : AMPLITUDE_THRESHOLD < |adc - dc|
  · refine ⟨⟨[Event.trigEval |adc - dc|, Event.flagSet, Event.captureStart], ?_⟩, rfl⟩
    rw [loopTrace_pos env adc dc hc]
    rfl
  · rw [loopTrace_neg env adc dc hc] at h
    simp at h

/-- Witness for C7 at a triggering input. -/
theorem cooldown_after_capture_witness :
    (∃ pre, loopTrace env0 false 2600 2048 =
        pre ++ [Event.captureEnd, Event.flagClear, Event.cooldown COOLDOWN_MS]) ∧
    COOLDOWN_MS = 2000 :=
  cooldown_after_capture env0 2600 2048 (by decide)

/-- Claim C8: if `malloc` fails, `recordAndAlert` returns at once — no
samples, no buffer, no file, no alert — and the triggering iteration still
calls it exactly once and still ends in the cooldown: no retry for that
trigger. -/
theorem alloc_failure_no_capture (env : RecordEnv) (dc amp adc : ℤ)
    (hAlloc : env.allocOk = false) (hTrig : AMPLITUDE_THRESHOLD < |adc - dc|) :
    (recordAndAlert env dc amp).samplesTaken = 0 ∧
    (recordAndAlert env dc amp).buffer = none ∧
    (recordAndAlert env dc amp).fileWritten = false ∧
    (recordAndAlert env dc amp).alertPublished = false ∧
    loopCapture env false adc dc = some (recordAndAlert env dc |adc - dc|) ∧
    Event.cooldown COOLDOWN_MS ∈ loopTrace env false adc dc ∧
    (loopTrace env false adc dc).count Event.captureStart = 1 := by
  refine ⟨?_, ?_, ?_, ?_, ?_, ?_, ?_⟩ <;>
    simp [recordAndAlert, hAlloc, loopCapture, hTrig, loopTrace, List.count_cons]

/-- Witness for C8 at a concrete allocation-failure environment. -/
theorem alloc_failure_no_capture_witness :
    (recordAndAlert envNoAlloc 2048 552).samplesTaken = 0 ∧
    (recordAndAlert envNoAlloc 2048 552).buffer = none ∧
    (recordAndAlert envNoAlloc 2048 552).fileWritten = false ∧
    (recordAndAlert envNoAlloc 2048 552).alertPublished = false ∧
    loopCapture envNoAlloc false 2600 2048 = some (recordAndAlert envNoAlloc 2048 |2600 - 2048|) ∧
    Event.cooldown COOLDOWN_MS ∈ loopTrace envNoAlloc false 2600 2048 ∧
    (loopTrace envNoAlloc false 2600 2048).count Event.captureStart = 1 :=
  alloc_failure_no_capture envNoAlloc 2048 552 2600 rfl (by decide)

/-- Claim C9: calibration is deterministic over its input — two runs that
see the same 1024 calibration reads produce the same DC offset. -/
theorem calibrate_deterministic (f g : ℕ → ℕ) (h : ∀ i, i < 1024 → f i = g i) :
    calibrateDCOffset f = calibrateDCOffset g := by
  rw [calibrate_eq_sum, calibrate_eq_sum]
  have hs : (∑ i in Finset.range 1024, f i) = ∑ i in Finset.range 1024, g i :=
    Finset.sum_congr rfl (fun i hi => h i (Finset.mem_range.mp hi))
  rw [hs]

/-- Witness for C9: two streams that agree on the first 1024 reads (though
not beyond) calibrate identically. -/
theorem calibrate_deterministic_witness :
    calibrateDCOffset exF2 = calibrateDCOffset exG2 :=
  calibrate_deterministic exF2 exG2 (fun i hi => by simp [exF2, exG2, hi])

/-- Claim C10: if the file cannot be opened after a complete capture,
`recordAndAlert` frees the buffer and returns with nothing written and no
alert; publishing only ever happens after the file has been written. -/
theorem file_open_failure_no_alert (env : RecordEnv) (dc amp : ℤ)
    (hAlloc : env.allocOk = true) (hFile : env.fileOpenOk = false) :
    (recordAndAlert env dc amp).bufferFreed = true ∧
    (recordAndAlert env dc amp).fileWritten = false ∧
    (recordAndAlert env dc amp).alertPublished = false ∧
    (∀ e : RecordEnv, (recordAndAlert e dc amp).alertPublished = true →
      (recordAndAlert e dc amp).fileWritten = true) := by
  refine ⟨?_, ?_, ?_, fun e he => alert_imp_fileWritten e dc amp he⟩ <;>
    simp [recordAndAlert, hAlloc, hFile]

/-- Witness for C10 at a concrete file-open-failure environment. -/
theorem file_open_failure_no_alert_witness :
    (recordAndAlert envNoFile 2048 552).bufferFreed = true ∧
    (recordAndAlert envNoFile 2048 552).fileWritten = false ∧
    (recordAndAlert envNoFile 2048 552).alertPublished = false ∧
    (∀ e : RecordEnv, (recordAndAlert e 2048 552).alertPublished = true →
      (recordAndAlert e 2048 552).fileWritten = true) :=
  file_open_failure_no_alert envNoFile 2048 552 rfl rfl

end VideoSDK
